import Mathlib

set_option maxHeartbeats 1000000
set_option maxRecDepth 8000

/-!
Shallow embedding of the FDT (Flattened Device Tree) locator / validator /
property-lookup engine of `src/fdt.c` (openwrt-xiaomi/firmware-utils).

Buffers are byte lists (`List Nat`, each entry taken mod 256, mirroring
`uint8_t`). Reads past the end of a buffer yield 0 (the C code would read
out of bounds there; the model makes such reads total and harmless so the
control flow can still be followed). Machine arithmetic that can wrap in C
(`uint32_t` addition, `size_t` subtraction) is modelled with explicit
`% 2^32` / `% 2^64`.
-/

/-- Byte read `((uint8_t*)b)[i]`; out-of-range reads give 0. -/
def byteAt (b : List Nat) (i : Nat) : Nat := b.getD i 0 % 256

/-- Big-endian 32-bit load `be32toh(*(uint32_t *)(b + i))`. -/
def be32 (b : List Nat) (i : Nat) : Nat :=
  byteAt b i * 16777216 + byteAt b (i + 1) * 65536 + byteAt b (i + 2) * 256 + byteAt b (i + 3)

/-- ASCII bytes of a string literal, for writing C string arguments. -/
def s2b (s : String) : List Nat := s.data.map Char.toNat

/-- The NUL-terminated C string starting at byte offset `off` of buffer `b`
(the byte content before the first 0; a missing terminator stops at the end
of the buffer). -/
def getCStr (b : List Nat) (off : Nat) : List Nat :=
  ((b.drop off).map (fun x => x % 256)).takeWhile (fun x => x ≠ 0)

/-- `get_fdt_totalsize(image, offset, check)` from `src/fdt.c` lines 22-69.
`sizeof(fdt_header_t) = 40`, `FDT_MAGIC = 0xd00dfeed = 3490578157`,
`INT_MAX = 2147483647`.  Header field byte offsets: magic 0, totalsize 4,
off_dt_struct 8, off_dt_strings 12, off_mem_rsvmap 16, version 20,
last_comp_version 24, boot_cpuid_phys 28, size_dt_strings 32,
size_dt_struct 36.  The two `off + size > totalsize` comparisons are
`uint32_t` additions, hence taken mod 2^32 as in the C. -/
def get_fdt_totalsize (img : List Nat) (offset : Nat) (check : Bool) : Int :=
  if be32 img offset ≠ 3490578157 then -1
  else
    if 2147483647 ≤ be32 img (offset + 4) ∨ be32 img (offset + 4) < 40 + 128 then -1
    else if check = false then (be32 img (offset + 4) : Int)
    else
      if be32 img (offset + 20) ≠ 17 ∨ be32 img (offset + 24) ≠ 16 then -1
      else
        if be32 img (offset + 8) ≤ 40 ∨ be32 img (offset + 4) ≤ be32 img (offset + 8) then -1
        else if be32 img (offset + 4) <
            (be32 img (offset + 8) + be32 img (offset + 36)) % 4294967296 then -1
        else
          if be32 img (offset + 12) ≤ 40 ∨ be32 img (offset + 4) ≤ be32 img (offset + 12) then -1
          else if be32 img (offset + 4) <
              (be32 img (offset + 12) + be32 img (offset + 32)) % 4294967296 then -1
          else if be32 img (offset + 28) ≠ 0 then -1
          else (be32 img (offset + 4) : Int)

/-- One body of the scan loop of `find_fdt_offset` (lines 77-90): does the
candidate offset `pos` get returned? -/
def find_fdt_check (img : List Nat) (pos : Nat) (max_fdt_size : Int) : Bool :=
  if be32 img pos ≠ 3490578157 then false
  else if get_fdt_totalsize img pos true ≤ 0 then false
  else if 0 < max_fdt_size ∧ max_fdt_size < get_fdt_totalsize img pos true then false
  else true

/-- The scan loop of `find_fdt_offset`, running `count` more iterations
starting at candidate offset `pos`. -/
def find_fdt_loop (img : List Nat) (max_fdt_size : Int) : Nat → Nat → Int
  | 0, _ => -1
  | count + 1, pos =>
    if find_fdt_check img pos max_fdt_size then (pos : Int)
    else find_fdt_loop img max_fdt_size count (pos + 1)

/-- `find_fdt_offset(image, size, max_fdt_size)` from `src/fdt.c` lines
71-92.  The loop bound is the C expression
`size - sizeof(fdt_header_t) - 8` evaluated in `size_t` (64-bit, wrapping),
i.e. `(size + 2^64 - 48) % 2^64` for `size < 2^64`. -/
def find_fdt_offset (img : List Nat) (size : Nat) (max_fdt_size : Int) : Int :=
  find_fdt_loop img max_fdt_size ((size + (18446744073709551616 - 48)) % 18446744073709551616) 0

/-- The segment-counting loop of `get_path_depth` (lines 185-197):
`for (i = 0; i <= tplen; i++)` with `rem` remaining iterations
(`rem = tp.length + 1 - i` at the first call), `dnStart` the index of the
current segment start (`dn - tp`), `depth` the count of finished segments.
An empty segment (consecutive slashes inside the path) returns -12. -/
def pathSegLoop (tp : List Nat) : Nat → Nat → Nat → Nat → Int
  | 0, _, _, depth => (depth : Int)
  | rem + 1, dnStart, i, depth =>
    if tp.getD i 0 = 47 ∨ i = tp.length then
      if i - dnStart = 0 then -12
      else pathSegLoop tp rem (i + 1) (i + 1) (depth + 1)
    else pathSegLoop tp rem dnStart (i + 1) depth

/-- `get_path_depth(path)` from `src/fdt.c` lines 161-199: strip one leading
slash, stop with 0 on an empty remainder, strip one trailing slash, stop
with 0 on an empty remainder, then count `/`-separated segments (an empty
segment yields -12). ASCII `'/' = 47`. -/
def get_path_depth (path : List Nat) : Int :=
  let tp := if path.headD 0 = 47 then path.drop 1 else path
  if tp.length = 0 then 0
  else
    let tp2 := if tp.getD (tp.length - 1) 0 = 47 then tp.take (tp.length - 1) else tp
    if tp2.length = 0 then 0
    else pathSegLoop tp2 (tp2.length + 1) 0 0 0

/-- The per-segment comparison of `check_search_target` (lines 249-264):
`dn` is the pattern segment (always nonempty when called), `anc` the
ancestor node name `ctx->path[depth]`.  A segment whose last byte is
`'*' = 42` does a prefix comparison of the segment minus the star
(`strlen(anc) < dnlen` → -6, `strncmp` mismatch → -7); otherwise an exact
comparison (length mismatch → -2, `strncmp` mismatch → -3).  The `strncmp`
calls are modelled as equality of the first `dnlen` bytes, which is exact
here because neither side contains a NUL in that range. -/
def segCompare (dn anc : List Nat) : Int :=
  if dn.getD (dn.length - 1) 0 = 42 then
    if anc.length < dn.length - 1 then -6
    else if ¬ (anc.take (dn.length - 1) = dn.take (dn.length - 1)) then -7
    else 0
  else
    if ¬ (anc.length = dn.length) then -2
    else if ¬ (anc.take dn.length = dn.take dn.length) then -3
    else 0

/-- The segment loop of `check_search_target` (lines 241-268), same loop
shape as `pathSegLoop` but comparing each segment against the ancestor
stack; falling off the loop returns 0 (overall match). -/
def checkSegLoop (tp : List Nat) (stack : List (List Nat)) : Nat → Nat → Nat → Nat → Int
  | 0, _, _, _ => 0
  | rem + 1, dnStart, i, depth =>
    if tp.getD i 0 = 47 ∨ i = tp.length then
      if i - dnStart = 0 then -12
      else
        if segCompare ((tp.drop dnStart).take (i - dnStart)) (stack.getD depth []) ≠ 0 then
          segCompare ((tp.drop dnStart).take (i - dnStart)) (stack.getD depth [])
        else checkSegLoop tp stack rem (i + 1) (i + 1) (depth + 1)
    else checkSegLoop tp stack rem dnStart (i + 1) depth

/-- `check_search_target(ctx, prop)` from `src/fdt.c` lines 201-270.
`strBase` is `ctx->strings` as a byte offset into `img`; `tpath`, `tdepth`,
`tname` are `ctx->target_path`, `ctx->target_depth`, `ctx->target_name`;
`depth` and `stack` are `ctx->depth` and the live entries
`ctx->path[0..depth)`; `propPos` is the byte offset of `prop`
(`prop->nameoff` sits at `propPos + 8`). -/
def check_search_target (img : List Nat) (strBase : Nat) (tpath : List Nat) (tdepth : Int)
    (tname : Option (List Nat)) (depth : Int) (stack : List (List Nat)) (propPos : Nat) : Int :=
  match tname with
  | none => -1
  | some tn =>
    if ¬ (depth = tdepth) then -1
    else if ¬ (getCStr img (strBase + be32 img (propPos + 8)) = tn) then -1
    else if tdepth ≤ 0 then -1
    else
      let tp := if tpath.headD 0 = 47 then tpath.drop 1 else tpath
      if tp.length = 0 then -10
      else
        let tp2 := if tp.getD (tp.length - 1) 0 = 47 then tp.take (tp.length - 1) else tp
        if tp2.length = 0 then -11
        else checkSegLoop tp2 stack (tp2.length + 1) 0 0 0

/-- Result of the tag-stream walk `enum_fdt_nodes`.  The C function always
returns `NULL`; the distinct outcomes are observable through `ctx->res`
(match found), the error `printf`s (structural error), and the silent
`FDT_END` return.  `fuelOut` is the model's fuel exhaustion and never
arises with sufficient fuel. -/
inductive WalkRes where
  | found (propPos : Nat)
  | endOfStream
  | error
  | fuelOut
deriving DecidableEq

/-- `enum_fdt_nodes(ctx)` from `src/fdt.c` lines 272-357, flattened: the C
recursion at `FDT_BEGIN_NODE` always returns `NULL` upward, so the walk is
a single loop over tags with shared state `(pos, depth, stack)`.
Tags: `BEGIN_NODE = 1`, `END_NODE = 2`, `PROP = 3`, `NOP = 4`, `END = 9`.
`BEGIN_NODE` at depth `< 0` demands an empty root name and sets depth 0
without pushing; otherwise it demands a nonempty name and pushes it at
index `depth` (`ctx->path[ctx->depth++] = name`); either way the walk
aborts if the new depth equals `MAX_FDT_DEPTH = 32`, and otherwise skips
`1 + (strlen(name)+4)/4` words.  `PROP` aborts on `len ≥ INT_MAX`, stops
with a match when `check_search_target` returns 0, and otherwise skips
`3 + (len+3)/4` words. -/
def enum_fdt_nodes (img : List Nat) (strBase : Nat) (tpath : List Nat) (tdepth : Int)
    (tname : Option (List Nat)) : Nat → Nat → Int → List (List Nat) → WalkRes
  | 0, _, _, _ => .fuelOut
  | fuel + 1, pos, depth, stack =>
    if be32 img pos = 1 then
      if (depth < 0 ∧ ¬ (getCStr img (pos + 4) = [])) ∨
         (0 ≤ depth ∧ getCStr img (pos + 4) = []) then .error
      else
        if (if depth < 0 then (0 : Int) else depth + 1) = 32 then .error
        else
          enum_fdt_nodes img strBase tpath tdepth tname fuel
            (pos + 4 + 4 * (((getCStr img (pos + 4)).length + 4) / 4))
            (if depth < 0 then 0 else depth + 1)
            (if depth < 0 then stack else stack.take depth.toNat ++ [getCStr img (pos + 4)])
    else if be32 img pos = 3 then
      if 2147483647 ≤ be32 img (pos + 4) then .error
      else if check_search_target img strBase tpath tdepth tname depth stack pos = 0 then
        .found pos
      else
        enum_fdt_nodes img strBase tpath tdepth tname fuel
          (pos + 12 + 4 * ((be32 img (pos + 4) + 3) / 4)) depth stack
    else if be32 img pos = 4 then
      enum_fdt_nodes img strBase tpath tdepth tname fuel (pos + 4) depth stack
    else if be32 img pos = 2 then
      enum_fdt_nodes img strBase tpath tdepth tname fuel (pos + 4)
        (if 0 < depth then depth - 1 else depth) stack
    else if be32 img pos = 9 then .endOfStream
    else .error

/-- Specification-side variant of the walk for the first-match property
(§4.4 of the spec: "first pre-order match wins").  Identical stepping to
`enum_fdt_nodes`, but instead of stopping at the first matching property it
collects every matching property position in stream order and keeps
walking; structural errors, `FDT_END` and fuel exhaustion end the
collection.  `enum_fdt_nodes` is then proved to return exactly the head of
this list. -/
def enum_fdt_allMatches (img : List Nat) (strBase : Nat) (tpath : List Nat) (tdepth : Int)
    (tname : Option (List Nat)) : Nat → Nat → Int → List (List Nat) → List Nat
  | 0, _, _, _ => []
  | fuel + 1, pos, depth, stack =>
    if be32 img pos = 1 then
      if (depth < 0 ∧ ¬ (getCStr img (pos + 4) = [])) ∨
         (0 ≤ depth ∧ getCStr img (pos + 4) = []) then []
      else
        if (if depth < 0 then (0 : Int) else depth + 1) = 32 then []
        else
          enum_fdt_allMatches img strBase tpath tdepth tname fuel
            (pos + 4 + 4 * (((getCStr img (pos + 4)).length + 4) / 4))
            (if depth < 0 then 0 else depth + 1)
            (if depth < 0 then stack else stack.take depth.toNat ++ [getCStr img (pos + 4)])
    else if be32 img pos = 3 then
      if 2147483647 ≤ be32 img (pos + 4) then []
      else if check_search_target img strBase tpath tdepth tname depth stack pos = 0 then
        pos :: enum_fdt_allMatches img strBase tpath tdepth tname fuel
          (pos + 12 + 4 * ((be32 img (pos + 4) + 3) / 4)) depth stack
      else
        enum_fdt_allMatches img strBase tpath tdepth tname fuel
          (pos + 12 + 4 * ((be32 img (pos + 4) + 3) / 4)) depth stack
    else if be32 img pos = 4 then
      enum_fdt_allMatches img strBase tpath tdepth tname fuel (pos + 4) depth stack
    else if be32 img pos = 2 then
      enum_fdt_allMatches img strBase tpath tdepth tname fuel (pos + 4)
        (if 0 < depth then depth - 1 else depth) stack
    else if be32 img pos = 9 then []
    else []

/-- The outcome of the walk seen through `ctx->res`: the matched property
position, if any. -/
def resToOption : WalkRes → Option Nat
  | .found p => some p
  | _ => none

/-- `get_fdt_prop(img, path, name)` from `src/fdt.c` lines 381-418 together
with `init_fdt_ctx` (lines 359-379).  A NULL C pointer argument is `none`.
Returns the byte offset of the matched `fdt_property_t`, or `none` (the C
`NULL`) on any failure: invalid header, both arguments NULL, negative path
depth, struct block not starting with a zero-named `FDT_BEGIN_NODE`, or no
match.  When `path` is NULL the target fields stay zeroed (`tdepth = 0`,
`tname = NULL`), so the walk can never match.  The walk gets fuel
`img.length + 1`, which is proved sufficient below. -/
def get_fdt_prop (img : List Nat) (path name : Option (List Nat)) : Option Nat :=
  if get_fdt_totalsize img 0 true ≤ 0 then none
  else if name = none ∧ path = none then none
  else
    let pd : Int := match path with | some p => get_path_depth p | none => 0
    if pd < 0 then none
    else
      if ¬ (be32 img (be32 img 8) = 1) then none
      else if ¬ (be32 img (be32 img 8 + 4) = 0) then none
      else
        match name, enum_fdt_nodes img (be32 img 12)
            (match path with | some p => p | none => [])
            (match path with | some p => get_path_depth p | none => (0 : Int))
            (match path with | some _ => name | none => none)
            (img.length + 1) (be32 img 8) (-1) [] with
        | some _, .found p => some p
        | _, _ => none

/-- `get_fdt_prop_val(img, path, name, &size)` from `src/fdt.c` lines
420-430: the data pointer (prop offset + 12) and `be32toh(prop->len)`. -/
def get_fdt_prop_val (img : List Nat) (path name : Option (List Nat)) : Option (Nat × Nat) :=
  match get_fdt_prop img path name with
  | some p => some (p + 12, be32 img (p + 4))
  | none => none

/-- `get_fdt_prop_u32(img, path, name)` from `src/fdt.c` lines 432-440:
`int64_t` result; the big-endian 32-bit value when the property was found
with length exactly 4, and -1 otherwise. -/
def get_fdt_prop_u32 (img : List Nat) (path name : Option (List Nat)) : Int :=
  match get_fdt_prop_val img path name with
  | some (v, size) => if size = 4 then (be32 img v : Int) else -1
  | none => -1

/-- A concrete well-formed FDT blob, `totalsize = 168`: header, 4 padding
bytes, struct block at offset 44 (size 80): root node with a 4-byte
property `model = ff ff ff ff`, a child node `chosen` with a 4-byte
property `reg = ff ff ff ff` and a 2-byte property `cmd = "ok"`; strings
block at offset 124 (size 14): `"reg\0model\0cmd\0"`; zero padding up to
totalsize. -/
def fdtBlob : List Nat :=
  [0xd0, 0x0d, 0xfe, 0xed,  0, 0, 0, 168,  0, 0, 0, 44,  0, 0, 0, 124,
   0, 0, 0, 0,  0, 0, 0, 17,  0, 0, 0, 16,  0, 0, 0, 0,
   0, 0, 0, 14,  0, 0, 0, 80,
   0, 0, 0, 0,
   0, 0, 0, 1,  0, 0, 0, 0,
   0, 0, 0, 3,  0, 0, 0, 4,  0, 0, 0, 4,  255, 255, 255, 255,
   0, 0, 0, 1,  99, 104, 111, 115,  101, 110, 0, 0,
   0, 0, 0, 3,  0, 0, 0, 4,  0, 0, 0, 0,  255, 255, 255, 255,
   0, 0, 0, 3,  0, 0, 0, 2,  0, 0, 0, 10,  111, 107, 0, 0,
   0, 0, 0, 2,  0, 0, 0, 2,  0, 0, 0, 9,
   114, 101, 103, 0,  109, 111, 100, 101,  108, 0, 99, 109,  100, 0] ++
  List.replicate 30 0

/-- A 47-byte buffer whose first 40 bytes are a fully valid strict FDT
header (`totalsize = 200`, struct block 44+4, strings block 48+4): shorter
than `sizeof(fdt_header_t) + 8 = 48`, yet `find_fdt_offset` returns 0 on
it because its `size_t` loop bound underflows. -/
def buf47 : List Nat :=
  [0xd0, 0x0d, 0xfe, 0xed,  0, 0, 0, 200,  0, 0, 0, 44,  0, 0, 0, 48,
   0, 0, 0, 0,  0, 0, 0, 17,  0, 0, 0, 16,  0, 0, 0, 0,
   0, 0, 0, 4,  0, 0, 0, 4,
   0, 0, 0, 0, 0, 0, 0]

/-- A 40-byte header with `totalsize = 200`, `off_dt_struct = 44` and
`size_dt_struct = 0xFFFFFFD4 = 4294967252`: the exact sum
`44 + 4294967252 = 2^32` exceeds `totalsize`, but the `uint32_t` addition
wraps to 0, so the strict validator accepts the header. -/
def hdrWrap : List Nat :=
  [0xd0, 0x0d, 0xfe, 0xed,  0, 0, 0, 200,  0, 0, 0, 44,  0, 0, 0, 48,
   0, 0, 0, 0,  0, 0, 0, 17,  0, 0, 0, 16,  0, 0, 0, 0,
   0, 0, 0, 4,  0xff, 0xff, 0xff, 0xd4]

/-- A tiny tag stream: `END_NODE`, `BEGIN_NODE "a"`, `END`.  Used to show
that an `END_NODE` seen at depth 0 does not decrement the depth. -/
def img2 : List Nat := [0, 0, 0, 2,  0, 0, 0, 1,  97, 0, 0, 0,  0, 0, 0, 9]

/-- A tag stream of 33 nested `BEGIN_NODE`s with no `END_NODE`: the empty-
named root followed by 32 nodes named `"a"`. -/
def deepImg : List Nat :=
  [0, 0, 0, 1,  0, 0, 0, 0] ++ (List.replicate 32 [0, 0, 0, 1, 97, 0, 0, 0]).flatten

/-- If the current iteration's acceptance check passes and at least one
iteration remains, the scan loop returns the current position. -/
theorem find_fdt_loop_ret (img : List Nat) (m : Int) (count pos : Nat)
    (hc : count ≠ 0) (h : find_fdt_check img pos m = true) :
    find_fdt_loop img m count pos = (pos : Int) := by
  cases count with
  | zero => exact absurd rfl hc
  | succ n => simp [find_fdt_loop, h]

/-- Every big-endian 32-bit load is below 2^32. -/
theorem be32_lt (b : List Nat) (i : Nat) : be32 b i < 4294967296 := by
  have h0 : byteAt b i < 256 := Nat.mod_lt _ (by norm_num)
  have h1 : byteAt b (i + 1) < 256 := Nat.mod_lt _ (by norm_num)
  have h2 : byteAt b (i + 2) < 256 := Nat.mod_lt _ (by norm_num)
  have h3 : byteAt b (i + 3) < 256 := Nat.mod_lt _ (by norm_num)
  unfold be32
  omega

/-- C1: the claim says that for every buffer shorter than
`sizeof(fdt_header_t) + 8 = 48` bytes, `find_fdt_offset` returns -1 without
scanning any candidate offset.  The code computes the loop bound
`size - sizeof(fdt_header_t) - 8` in `size_t`, which underflows for
`size < 48`: on `buf47`, a 47-byte buffer whose first 40 bytes form a
valid strict header, the scan runs and returns offset 0 instead of -1. -/
theorem c1_find_fdt_offset_small_buffer_scans :
    47 < 48 ∧ find_fdt_offset buf47 47 0 = 0 ∧ (0 : Int) ≠ -1 :=
  ⟨by norm_num,
   find_fdt_loop_ret buf47 0 ((47 + (18446744073709551616 - 48)) % 18446744073709551616) 0
     (by decide) (by decide),
   by decide⟩

/-- C3 counterexample: `hdrWrap` has `off_dt_struct = 44`,
`size_dt_struct = 4294967252` and `totalsize = 200`, so the exact sum
`off_dt_struct + size_dt_struct = 2^32` exceeds `totalsize`; the claim says
strict validation rejects it, but the `uint32_t` sum wraps to 0 and the
header is accepted with result 200. -/
theorem c3_struct_overflow_accepted :
    be32 hdrWrap 4 < be32 hdrWrap 8 + be32 hdrWrap 36 ∧
    get_fdt_totalsize hdrWrap 0 true = 200 ∧ (200 : Int) ≠ -1 := by
  refine ⟨by decide, by decide, by decide⟩

/-- C3 amended: strict validation enforces the two containment comparisons
in wrapping 32-bit arithmetic: whenever a header is accepted,
`(off_dt_struct + size_dt_struct) mod 2^32 ≤ totalsize` and
`(off_dt_strings + size_dt_strings) mod 2^32 ≤ totalsize`. -/
theorem c3_containment_mod32 (b : List Nat) (h : get_fdt_totalsize b 0 true ≠ -1) :
    (be32 b 8 + be32 b 36) % 4294967296 ≤ be32 b 4 ∧
    (be32 b 12 + be32 b 32) % 4294967296 ≤ be32 b 4 := by
  simp only [get_fdt_totalsize] at h
  split_ifs at h <;> first | (exact absurd rfl h) | simp_all

/-- Witness for `c3_containment_mod32` at the concrete blob `fdtBlob`. -/
theorem c3_containment_mod32_witness :
    (be32 fdtBlob 8 + be32 fdtBlob 36) % 4294967296 ≤ be32 fdtBlob 4 ∧
    (be32 fdtBlob 12 + be32 fdtBlob 32) % 4294967296 ≤ be32 fdtBlob 4 :=
  c3_containment_mod32 fdtBlob (by decide)

/-- C4 counterexample: the claim says an `END_NODE` decrements the depth
whenever it is currently ≥ 0, i.e. a step at depth 0 continues at depth -1.
On `img2` (an `END_NODE` followed by `BEGIN_NODE "a"` and `END`) the walk
from depth 0 ends quietly at `FDT_END`, while continuing from depth -1 as
the claim dictates hits the nonempty-named `BEGIN_NODE` in the root slot
and aborts with an error: the code does not decrement at depth 0. -/
theorem c4_end_node_depth_zero_not_popped :
    be32 img2 0 = 2 ∧ (0 : Int) ≥ 0 ∧
    enum_fdt_nodes img2 0 [] 0 none 4 0 0 [] = WalkRes.endOfStream ∧
    enum_fdt_nodes img2 0 [] 0 none 3 4 (0 - 1) [] = WalkRes.error ∧
    WalkRes.endOfStream ≠ WalkRes.error := by
  refine ⟨by decide, by decide, by decide, by decide, by decide⟩

/-- C4 amended: an `END_NODE` tag decrements the depth exactly when the
current depth is strictly positive (`ctx->depth > 0`); at depth 0 or below
the depth is left unchanged, and in either case the walk continues at the
next word. -/
theorem c4_end_node_pops_iff_positive (img : List Nat) (strB : Nat) (tp : List Nat)
    (td : Int) (tn : Option (List Nat)) (fuel pos : Nat) (depth : Int)
    (stack : List (List Nat)) (h : be32 img pos = 2) :
    enum_fdt_nodes img strB tp td tn (fuel + 1) pos depth stack =
      enum_fdt_nodes img strB tp td tn fuel (pos + 4)
        (if 0 < depth then depth - 1 else depth) stack := by
  simp only [enum_fdt_nodes, h]
  norm_num

/-- Witness for `c4_end_node_pops_iff_positive` on `img2` at depth 0. -/
theorem c4_end_node_pops_iff_positive_witness :
    enum_fdt_nodes img2 0 [] 0 none 4 0 0 [] =
      enum_fdt_nodes img2 0 [] 0 none 3 4 (if 0 < (0 : Int) then 0 - 1 else 0) [] :=
  c4_end_node_pops_iff_positive img2 0 [] 0 none 3 0 0 [] (by decide)

/-- C5 counterexample: the claim says the -1 sentinel of the 32-bit
accessor is indistinguishable from a legitimate property value with bit
pattern `0xFFFFFFFF`.  The accessor returns `int64_t`: on `fdtBlob`, whose
property `/chosen/reg` stores bytes `ff ff ff ff`, it returns 4294967295,
which differs from the sentinel -1. -/
theorem c5_u32_allones_distinguishable :
    be32 fdtBlob 92 = 4294967295 ∧
    get_fdt_prop_u32 fdtBlob (some (s2b "/chosen")) (some (s2b "reg")) = 4294967295 ∧
    (4294967295 : Int) ≠ -1 := by
  refine ⟨by decide, by decide, by decide⟩

/-- C5 amended: the accessor returns the -1 sentinel whenever no property
matches or the matched length differs from 4, and on success it returns the
decoded big-endian word, which lies in `[0, 2^32)` and is therefore always
distinguishable from the sentinel in the `int64_t` return type. -/
theorem c5_u32_sentinel_behavior :
    (∀ img path name, get_fdt_prop img path name = none →
      get_fdt_prop_u32 img path name = -1) ∧
    (∀ img path name p, get_fdt_prop img path name = some p →
      ¬ (be32 img (p + 4) = 4) → get_fdt_prop_u32 img path name = -1) ∧
    (∀ img path name p, get_fdt_prop img path name = some p →
      be32 img (p + 4) = 4 →
      get_fdt_prop_u32 img path name = (be32 img (p + 12) : Int) ∧
      0 ≤ get_fdt_prop_u32 img path name ∧
      get_fdt_prop_u32 img path name < 4294967296) := by
  refine ⟨?_, ?_, ?_⟩
  · intro img path name h
    simp [get_fdt_prop_u32, get_fdt_prop_val, h]
  · intro img path name p h hs
    simp [get_fdt_prop_u32, get_fdt_prop_val, h, hs]
  · intro img path name p h hs
    have hlt : be32 img (p + 12) < 4294967296 := be32_lt img (p + 12)
    simp only [get_fdt_prop_u32, get_fdt_prop_val, h, hs]
    norm_num
    omega

/-- Witness for `c5_u32_sentinel_behavior`: the no-match case on the empty
buffer, the wrong-size case on `/chosen/cmd` (length 2), and the success
case on `/chosen/reg` (length 4) of `fdtBlob`. -/
theorem c5_u32_sentinel_behavior_witness :
    get_fdt_prop_u32 [] none none = -1 ∧
    get_fdt_prop_u32 fdtBlob (some (s2b "/chosen")) (some (s2b "cmd")) = -1 ∧
    get_fdt_prop_u32 fdtBlob (some (s2b "/chosen")) (some (s2b "reg")) =
      (be32 fdtBlob 92 : Int) :=
  ⟨c5_u32_sentinel_behavior.1 [] none none (by decide),
   c5_u32_sentinel_behavior.2.1 fdtBlob (some (s2b "/chosen")) (some (s2b "cmd")) 96
     (by decide) (by decide),
   (c5_u32_sentinel_behavior.2.2 fdtBlob (some (s2b "/chosen")) (some (s2b "reg")) 80
     (by decide) (by decide)).1⟩

/-- C9: a pattern segment whose last byte is `'*' = 42` matches exactly the
ancestor names extending the segment minus its star; concretely, `"eth*"`
matches `"eth0"`, `"eth"` and `"ethernet"` but not `"et"`. -/
theorem c9_wildcard_is_prefix_match :
    (∀ dn anc : List Nat, dn.getD (dn.length - 1) 0 = 42 →
      (segCompare dn anc = 0 ↔ ∃ t, dn.dropLast ++ t = anc)) ∧
    segCompare (s2b "eth*") (s2b "eth0") = 0 ∧
    segCompare (s2b "eth*") (s2b "eth") = 0 ∧
    segCompare (s2b "eth*") (s2b "ethernet") = 0 ∧
    ¬ (segCompare (s2b "eth*") (s2b "et") = 0) := by
  refine ⟨?_, by decide, by decide, by decide, by decide⟩
  intro dn anc h
  have hdl : dn.dropLast = dn.take (dn.length - 1) := List.dropLast_eq_take dn
  have hlen : dn.dropLast.length = dn.length - 1 := by
    rw [hdl]
    exact List.length_take_of_le (Nat.sub_le _ _)
  simp only [segCompare, if_pos h]
  constructor
  · intro h0
    by_cases hl : anc.length < dn.length - 1
    · simp [hl] at h0
    · by_cases he : anc.take (dn.length - 1) = dn.take (dn.length - 1)
      · refine ⟨anc.drop (dn.length - 1), ?_⟩
        rw [hdl, ← he, List.take_append_drop]
      · simp [hl, he] at h0
  · rintro ⟨t, rfl⟩
    have hl : ¬ (dn.dropLast ++ t).length < dn.length - 1 := by
      rw [List.length_append, hlen]
      omega
    have he : (dn.dropLast ++ t).take (dn.length - 1) = dn.take (dn.length - 1) := by
      rw [← hlen, List.take_left, hlen]
      exact hdl
    simp [hl, he]

/-- Witness for `c9_wildcard_is_prefix_match`: the general equivalence
instantiated at segment `"eth*"` and ancestor `"ethernet"`. -/
theorem c9_wildcard_is_prefix_match_witness :
    segCompare (s2b "eth*") (s2b "ethernet") = 0 ↔
      ∃ t, (s2b "eth*").dropLast ++ t = s2b "ethernet" :=
  c9_wildcard_is_prefix_match.1 (s2b "eth*") (s2b "ethernet") (by decide)

/-- C6: for any buffer whose header satisfies all the invariants of the
strict profile — magic, `hdrsize + 128 ≤ totalsize < INT_MAX`,
`version = 17` with `last_comp_version = 16`, both block-containment pairs
(in exact arithmetic, which entails the code's wrapping comparison), and
`boot_cpuid_phys = 0` — strict validation returns `totalsize` exactly; and
on the concrete valid blob `fdtBlob` (accepted with result 168) each
invariant independently gates acceptance: putting any single header field
out of range flips the result to -1. -/
theorem c6_validator_roundtrip_and_gates :
    (∀ b : List Nat,
      be32 b 0 = 3490578157 →
      40 + 128 ≤ be32 b 4 → be32 b 4 < 2147483647 →
      be32 b 20 = 17 → be32 b 24 = 16 →
      40 < be32 b 8 → be32 b 8 < be32 b 4 →
      be32 b 8 + be32 b 36 ≤ be32 b 4 →
      40 < be32 b 12 → be32 b 12 < be32 b 4 →
      be32 b 12 + be32 b 32 ≤ be32 b 4 →
      be32 b 28 = 0 →
      get_fdt_totalsize b 0 true = (be32 b 4 : Int)) ∧
    get_fdt_totalsize fdtBlob 0 true = 168 ∧
    get_fdt_totalsize (fdtBlob.set 0 0) 0 true = -1 ∧
    get_fdt_totalsize (fdtBlob.set 7 100) 0 true = -1 ∧
    get_fdt_totalsize ((((fdtBlob.set 4 0x7f).set 5 0xff).set 6 0xff).set 7 0xff) 0 true = -1 ∧
    get_fdt_totalsize (fdtBlob.set 23 16) 0 true = -1 ∧
    get_fdt_totalsize (fdtBlob.set 27 17) 0 true = -1 ∧
    get_fdt_totalsize (fdtBlob.set 11 40) 0 true = -1 ∧
    get_fdt_totalsize (fdtBlob.set 11 168) 0 true = -1 ∧
    get_fdt_totalsize (fdtBlob.set 39 168) 0 true = -1 ∧
    get_fdt_totalsize (fdtBlob.set 15 40) 0 true = -1 ∧
    get_fdt_totalsize (fdtBlob.set 15 168) 0 true = -1 ∧
    get_fdt_totalsize (fdtBlob.set 35 168) 0 true = -1 ∧
    get_fdt_totalsize (fdtBlob.set 31 1) 0 true = -1 := by
  refine ⟨?_, by decide, by decide, by decide, by decide, by decide, by decide, by decide,
    by decide, by decide, by decide, by decide, by decide, by decide⟩
  intro b hmagic hts1 hts2 hver hlast hos1 hos2 hos3 hog1 hog2 hog3 hboot
  have hm1 : (be32 b 8 + be32 b 36) % 4294967296 = be32 b 8 + be32 b 36 :=
    Nat.mod_eq_of_lt (by omega)
  have hm2 : (be32 b 12 + be32 b 32) % 4294967296 = be32 b 12 + be32 b 32 :=
    Nat.mod_eq_of_lt (by omega)
  simp only [get_fdt_totalsize, Nat.zero_add, hm1, hm2]
  split_ifs <;> omega

/-- Witness for `c6_validator_roundtrip_and_gates`: the universal part
applied at `fdtBlob` (all invariant hypotheses hold there). -/
theorem c6_validator_roundtrip_and_gates_witness :
    get_fdt_totalsize fdtBlob 0 true = (be32 fdtBlob 4 : Int) :=
  c6_validator_roundtrip_and_gates.1 fdtBlob (by decide) (by decide) (by decide) (by decide)
    (by decide) (by decide) (by decide) (by decide) (by decide) (by decide) (by decide)
    (by decide)

/-- A successful target check requires a strictly positive target depth:
every earlier exit of `check_search_target` returns a negative code. -/
theorem check_eq_zero_imp_tdepth_pos (img : List Nat) (strB : Nat) (tp : List Nat)
    (td : Int) (tn : Option (List Nat)) (depth : Int) (stack : List (List Nat)) (p : Nat)
    (h : check_search_target img strB tp td tn depth stack p = 0) : 0 < td := by
  cases tn with
  | none => simp [check_search_target] at h
  | some t =>
    simp only [check_search_target] at h
    split_ifs at h <;> omega

/-- With a non-positive target depth the walk can never report a match. -/
theorem enum_no_found_of_td_nonpos (img : List Nat) (strB : Nat) (tp : List Nat)
    (td : Int) (tn : Option (List Nat)) (htd : td ≤ 0) :
    ∀ fuel pos depth stack p,
      enum_fdt_nodes img strB tp td tn fuel pos depth stack ≠ WalkRes.found p := by
  intro fuel
  induction fuel with
  | zero =>
    intro pos depth stack p
    simp [enum_fdt_nodes]
  | succ n ih =>
    intro pos depth stack p
    simp only [enum_fdt_nodes]
    split_ifs <;>
      first
        | exact ih _ _ _ _
        | exact absurd (check_eq_zero_imp_tdepth_pos img strB tp td tn depth stack pos
            (by assumption)) (by omega)
        | simp

/-- A lookup whose path has non-positive computed depth returns `none`,
whatever the buffer and property name. -/
theorem get_fdt_prop_none_of_depth_nonpos (img : List Nat) (pth n : List Nat)
    (h : get_path_depth pth ≤ 0) :
    get_fdt_prop img (some pth) (some n) = none := by
  simp only [get_fdt_prop]
  split_ifs <;> try rfl
  cases he : enum_fdt_nodes img (be32 img 12) pth (get_path_depth pth) (some n)
      (img.length + 1) (be32 img 8) (-1) [] with
  | found p =>
    exact absurd he (enum_no_found_of_td_nonpos img (be32 img 12) pth (get_path_depth pth)
      (some n) h _ _ _ _ p)
  | endOfStream => simp [he]
  | error => simp [he]
  | fuelOut => simp [he]

/-- C2 counterexample: on `fdtBlob`, the lookup with path `"//"` returns
`none` — the very same public value as a generic failed lookup for a
missing property — and `get_path_depth` classifies `"//"` as depth 0, not
as one of the internal negative syntax-error codes: at the public boundary
the two failure classes are not distinguishable. -/
theorem c2_double_slash_conflated_with_not_found :
    get_fdt_prop fdtBlob (some (s2b "//")) (some (s2b "reg")) = none ∧
    get_fdt_prop fdtBlob (some (s2b "/chosen")) (some (s2b "nope")) = none ∧
    get_path_depth (s2b "//") = 0 := by
  refine ⟨by decide, by decide, by decide⟩

/-- C2 amended: a lookup with path `"//"` always fails, but with the same
`NULL`/not-found public result as any other failed lookup: `"//"` strips to
the empty path (`get_path_depth` gives 0, not a negative syntax-error
code), the walk then can never match, and the property-lookup entry point
returns `none`. -/
theorem c2_double_slash_returns_generic_none :
    get_path_depth (s2b "//") = 0 ∧
    ∀ (b n : List Nat), get_fdt_prop b (some (s2b "//")) (some n) = none :=
  ⟨by decide, fun b n => get_fdt_prop_none_of_depth_nonpos b (s2b "//") n (by decide)⟩

/-- C10: every lookup whose path strips to zero segments (`""`, `"/"`,
`"//"` all have computed depth 0) returns `none` for every buffer and
property name, even when the root node itself carries a property of that
name: on `fdtBlob` the root carries the property `model` (a `FDT_PROP` tag
at struct offset 52 whose name resolves to `"model"`), yet the lookup
`("/", "model")` returns `none` — root properties are unreachable through
the public lookup. -/
theorem c10_root_properties_unreachable :
    (∀ (b pth n : List Nat), get_path_depth pth = 0 →
      get_fdt_prop b (some pth) (some n) = none) ∧
    get_path_depth (s2b "") = 0 ∧
    get_path_depth (s2b "/") = 0 ∧
    get_path_depth (s2b "//") = 0 ∧
    be32 fdtBlob 52 = 3 ∧
    getCStr fdtBlob (124 + be32 fdtBlob 60) = s2b "model" ∧
    get_fdt_prop fdtBlob (some (s2b "/")) (some (s2b "model")) = none := by
  refine ⟨?_, by decide, by decide, by decide, by decide, by decide, by decide⟩
  intro b pth n h
  exact get_fdt_prop_none_of_depth_nonpos b pth n (by omega)

/-- Witness for `c10_root_properties_unreachable`: the universal part at
`fdtBlob` with path `"/"` and name `"model"`. -/
theorem c10_root_properties_unreachable_witness :
    get_fdt_prop fdtBlob (some (s2b "/")) (some (s2b "model")) = none :=
  c10_root_properties_unreachable.1 fdtBlob (s2b "/") (s2b "model") (by decide)

/-- A 32-bit load entirely past the end of the buffer reads zeros. -/
theorem be32_zero_of_len_le (b : List Nat) (i : Nat) (h : b.length ≤ i) : be32 b i = 0 := by
  have h0 : b.getD i 0 = 0 := List.getD_eq_default b 0 h
  have h1 : b.getD (i + 1) 0 = 0 := List.getD_eq_default b 0 (by omega)
  have h2 : b.getD (i + 2) 0 = 0 := List.getD_eq_default b 0 (by omega)
  have h3 : b.getD (i + 3) 0 = 0 := List.getD_eq_default b 0 (by omega)
  simp only [be32, byteAt, h0, h1, h2, h3]

/-- Fuel sufficiency for the walk: every step advances the position by at
least 4 bytes and a position at or past the end of the buffer reads tag 0,
which aborts; so `fuel` iterations with `img.length ≤ 4 * fuel + pos` never
exhaust the fuel. -/
theorem enum_not_fuelOut (img : List Nat) (strB : Nat) (tp : List Nat) (td : Int)
    (tn : Option (List Nat)) :
    ∀ fuel pos depth stack, fuel ≠ 0 → img.length ≤ 4 * (fuel - 1) + pos →
      enum_fdt_nodes img strB tp td tn fuel pos depth stack ≠ WalkRes.fuelOut := by
  intro fuel
  induction fuel with
  | zero => intro pos depth stack hf h; exact absurd rfl hf
  | succ n ih =>
    intro pos depth stack hf h
    by_cases hp : img.length ≤ pos
    · have hz : be32 img pos = 0 := be32_zero_of_len_le img pos hp
      simp [enum_fdt_nodes, hz]
    · by_cases hn : n = 0
      · exact absurd (show img.length ≤ pos by omega) hp
      · simp only [enum_fdt_nodes]
        split_ifs <;>
          first
            | exact ih _ _ _ hn (by omega)
            | simp

/-- C7: (a) a `BEGIN_NODE` with a nonempty name at depth 31 — the 33rd
nested open node, counting the root — pushes to depth 32 and makes the walk
abort with a structural error instead of descending further; (b) the walk
terminates on every finite stream: with `img.length ≤ 4·fuel + pos` the
fuel is never exhausted (each step advances at least one 32-bit word and
past-the-end reads abort); (c) concretely, the stream `deepImg` of 33
nested `BEGIN_NODE`s with no `END_NODE` makes the walk abort with an
error. -/
theorem c7_depth_guard_aborts :
    (∀ (img : List Nat) (strB : Nat) (tp : List Nat) (td : Int) (tn : Option (List Nat))
      (fuel pos : Nat) (stack : List (List Nat)),
      be32 img pos = 1 → ¬ (getCStr img (pos + 4) = []) →
      enum_fdt_nodes img strB tp td tn (fuel + 1) pos 31 stack = WalkRes.error) ∧
    (∀ (img : List Nat) (strB : Nat) (tp : List Nat) (td : Int) (tn : Option (List Nat))
      (fuel pos : Nat) (depth : Int) (stack : List (List Nat)),
      img.length ≤ 4 * fuel + pos →
      enum_fdt_nodes img strB tp td tn (fuel + 1) pos depth stack ≠ WalkRes.fuelOut) ∧
    enum_fdt_nodes deepImg 0 [] 0 none 100 0 (-1) [] = WalkRes.error := by
  refine ⟨?_, ?_, by decide⟩
  · intro img strB tp td tn fuel pos stack h hname
    simp only [enum_fdt_nodes, h]
    norm_num [hname]
  · intro img strB tp td tn fuel pos depth stack h
    exact enum_not_fuelOut img strB tp td tn (fuel + 1) pos depth stack (by omega) (by omega)

/-- Witness for `c7_depth_guard_aborts`: the depth-31 abort on a tiny
concrete node and fuel sufficiency on the empty buffer. -/
theorem c7_depth_guard_aborts_witness :
    enum_fdt_nodes [0, 0, 0, 1, 97, 0, 0, 0] 0 [] 0 none 1 0 31 [] = WalkRes.error ∧
    enum_fdt_nodes [] 0 [] 0 none 1 0 0 [] ≠ WalkRes.fuelOut :=
  ⟨c7_depth_guard_aborts.1 [0, 0, 0, 1, 97, 0, 0, 0] 0 [] 0 none 0 0 [] (by decide) (by decide),
   c7_depth_guard_aborts.2.1 [] 0 [] 0 none 0 0 0 [] (by decide)⟩

/-- C8: the walk implements first-pre-order-match-wins semantics: for every
buffer, target and starting state, the result reported through `ctx->res`
is exactly the head of the stream-ordered list of all matching properties
(`enum_fdt_allMatches`): the first matching property in the pre-order tag
stream is recorded, the walk stops there, and no later match can replace
it. -/
theorem c8_first_preorder_match_wins (img : List Nat) (strB : Nat) (tp : List Nat)
    (td : Int) (tn : Option (List Nat)) :
    ∀ fuel pos depth stack,
      resToOption (enum_fdt_nodes img strB tp td tn fuel pos depth stack) =
        (enum_fdt_allMatches img strB tp td tn fuel pos depth stack).head? := by
  intro fuel
  induction fuel with
  | zero => intro pos depth stack; rfl
  | succ n ih =>
    intro pos depth stack
    simp only [enum_fdt_nodes, enum_fdt_allMatches]
    split_ifs <;> first | exact ih _ _ _ | rfl
